import Mathlib

/-!
Shallow embedding of the resource-lifecycle tracker and command-batching
client of VtsComposerClient.cpp
(src/interfaces/graphics/composer/aidl/vts/VtsComposerClient.cpp).

The remote composer service is modelled as a pure oracle (`Remote`); each
embedded operation returns, besides its result, the list of remote calls it
issued and the list of records it appended to the pending command buffer
(the `ComposerClientWriter`).
-/

set_option autoImplicit false

namespace VtsComposer

/-- Return status of a call: models `ndk::ScopedAStatus`, which is either ok
or carries an error code (service-specific or transport). -/
inductive Status where
  | ok
  | error (code : Int)
deriving DecidableEq, Repr

/-- Models `ScopedAStatus::isOk()`. -/
def Status.isOk : Status → Bool
  | .ok => true
  | .error _ => false

/-- Service-specific error code `IComposerClient::EX_BAD_CONFIG` (symbolic value). -/
def EX_BAD_CONFIG : Int := 1

/-- Service-specific error code `IComposerClient::EX_BAD_DISPLAY` (symbolic value). -/
def EX_BAD_DISPLAY : Int := 2

/-- Service-specific error code `IComposerClient::EX_BAD_LAYER` (symbolic value). -/
def EX_BAD_LAYER : Int := 3

/-- The display attributes queried through `getDisplayAttribute`. -/
inductive DisplayAttribute where
  | VSYNC_PERIOD
  | CONFIG_GROUP
  | WIDTH
  | HEIGHT
deriving DecidableEq, Repr

/-- Composer capabilities returned by `IComposer::getCapabilities`. -/
inductive Capability where
  | INVALID
  | LAYER_LIFECYCLE_BATCH_COMMAND
  | SKIP_VALIDATE
deriving DecidableEq, Repr

/-- `LayerLifecycleBatchCommandType` of the batched layer-lifecycle protocol. -/
inductive LayerLifecycleBatchCommandType where
  | CREATE
  | DESTROY
  | MODIFY
deriving DecidableEq, Repr

/-- A record appended to the pending command buffer (`ComposerClientWriter`). -/
inductive WriterCmd where
  | lifecycleBatch (display layer : Int) (cmd : LayerLifecycleBatchCommandType)
  | newBufferSlotCount (display layer count : Int)
deriving DecidableEq, Repr

/-- A synchronous remote call issued to the composer service. -/
inductive RemoteCall where
  | getInterfaceVersion
  | getCapabilities
  | createLayer (display slotCount : Int)
  | destroyLayer (display layer : Int)
  | destroyVirtualDisplay (display : Int)
  | getDisplayAttribute (display config : Int) (attr : DisplayAttribute)
  | getDisplayConfigs (display : Int)
  | getDisplayConfigurations (display : Int)
deriving DecidableEq, Repr

/-- True exactly on per-config attribute queries. -/
def RemoteCall.isAttributeQuery : RemoteCall → Bool
  | .getDisplayAttribute _ _ _ => true
  | _ => false

/-- `DisplayResource`: virtual/physical classification of a display together
with the set of layer ids it owns (`std::unordered_set` modelled as a list). -/
structure DisplayResource where
  isVirtual : Bool
  layers : List Int
deriving DecidableEq, Repr

/-- The ownership registry `mDisplayResources`
(`std::unordered_map<int64_t, DisplayResource>` modelled as an association list). -/
abbrev Registry := List (Int × DisplayResource)

/-- The display ids present in the registry. -/
def registryKeys (m : Registry) : List Int := m.map Prod.fst

/-- `mDisplayResources.find(display)`. -/
def findDisplay : Registry → Int → Option DisplayResource
  | [], _ => none
  | (d, r) :: rest, display => if display = d then some r else findDisplay rest display

/-- Replace the resource stored under a display id, when present. -/
def updateDisplay : Registry → Int → DisplayResource → Registry
  | [], _, _ => []
  | (d, r) :: rest, display, r2 =>
    if display = d then (d, r2) :: rest else (d, r) :: updateDisplay rest display r2

/-- `mDisplayResources.erase(display)`. -/
def eraseDisplay : Registry → Int → Registry
  | [], _ => []
  | (d, r) :: rest, display =>
    if display = d then rest else (d, r) :: eraseDisplay rest display

/-- VtsComposerClient::addDisplayToDisplayResources (lines 591-598): the
insert fails with EX_BAD_DISPLAY when the display id is already present,
otherwise an empty resource entry is inserted. -/
def addDisplayToDisplayResources (m : Registry) (display : Int) (isVirtual : Bool) :
    Status × Registry :=
  match findDisplay m display with
  | some _ => (Status.error EX_BAD_DISPLAY, m)
  | none => (Status.ok, m ++ [(display, { isVirtual := isVirtual, layers := [] })])

/-- VtsComposerClient::addLayerToDisplayResources (lines 600-611): when the
display is unknown a non-virtual placeholder entry is inserted first; then the
layer insert fails with EX_BAD_LAYER when the layer id is already owned. -/
def addLayerToDisplayResources (m : Registry) (display layer : Int) : Status × Registry :=
  match findDisplay m display with
  | none =>
    let r : DisplayResource := { isVirtual := false, layers := [] }
    let m1 := m ++ [(display, r)]
    if layer ∈ r.layers then (Status.error EX_BAD_LAYER, m1)
    else (Status.ok, updateDisplay m1 display { r with layers := r.layers ++ [layer] })
  | some r =>
    if layer ∈ r.layers then (Status.error EX_BAD_LAYER, m)
    else (Status.ok, updateDisplay m display { r with layers := r.layers ++ [layer] })

/-- VtsComposerClient::removeLayerFromDisplayResources (lines 613-618): erase
the layer from the display entry when the display is present. -/
def removeLayerFromDisplayResources (m : Registry) (display layer : Int) : Registry :=
  match findDisplay m display with
  | none => m
  | some r => updateDisplay m display { r with layers := r.layers.erase layer }

/-- The layers owned by a display in the registry (empty when the display is absent). -/
def layersOf (m : Registry) (display : Int) : List Int :=
  match findDisplay m display with
  | none => []
  | some r => r.layers

/-- An extended configuration record (`DisplayConfiguration` of composer3,
version >= 3 query path). -/
structure DisplayConfiguration where
  configId : Int
  vsyncPeriod : Int
  configGroup : Int
  width : Int
  height : Int
  vrrConfig : Option Int
deriving DecidableEq, Repr

/-- The remote composer service modelled as a pure oracle: the value of field
`fR` is the (status, out-parameter) outcome the remote returns for call `f`. -/
structure Remote where
  interfaceVersionR : Status × Int
  capabilitiesR : Status × List Capability
  createLayerR : Int → Int → Status × Int
  destroyLayerR : Int → Int → Status
  destroyVirtualDisplayR : Int → Status
  getDisplayAttributeR : Int → Int → DisplayAttribute → Status × Int
  getDisplayConfigsR : Int → Status × List Int
  getDisplayConfigurationsR : Int → Status × List DisplayConfiguration

/-- The mutable session state of VtsComposerClient that the embedded
operations touch: the negotiated batching flag, the local layer-id counter
`mNextLayerHandle`, and the ownership registry `mDisplayResources`. -/
structure ClientState where
  supportsBatchedCreateLayer : Bool
  nextLayerHandle : Int
  displayResources : Registry
deriving DecidableEq, Repr

/-- Modelled from the spec: the initial value of the monotonically increasing
local layer-id counter `mNextLayerHandle`. Its member initializer lives in
VtsComposerClient.h, which is not among the sources; the spec says the counter
starts above zero. -/
def initNextLayerHandle : Int := 1

/-- VtsComposerClient::VtsComposerClient (lines 29-44): queries the composer
capabilities once and sets `mSupportsBatchedCreateLayer` when
LAYER_LIFECYCLE_BATCH_COMMAND is among them. The counter and the registry
start from their member initializers. -/
def initClientState (env : Remote) : ClientState :=
  { supportsBatchedCreateLayer :=
      (env.capabilitiesR.2).any (fun cap => cap == Capability.LAYER_LIFECYCLE_BATCH_COMMAND)
  , nextLayerHandle := initNextLayerHandle
  , displayResources := [] }

/-- VtsComposerClient::getInterfaceVersion (lines 69-73): a fresh remote
version query on every call; the local out-variable defaults to 1. -/
def getInterfaceVersion (env : Remote) : (Status × Int) × List RemoteCall :=
  let st := env.interfaceVersionR.1
  let version := if st.isOk then env.interfaceVersionR.2 else 1
  ((st, version), [RemoteCall.getInterfaceVersion])

/-- VtsComposerClient::getDisplayConfigurationSupported (lines 651-656):
re-queries the interface version and compares it against the protocol
constant 3. -/
def getDisplayConfigurationSupported (env : Remote) : Bool × List RemoteCall :=
  let r := getInterfaceVersion env
  (decide (3 ≤ r.1.2), r.2)

/-- Result of an embedded `createLayer` call. -/
structure CreateLayerOut where
  status : Status
  layer : Int
  state : ClientState
  calls : List RemoteCall
  writes : List WriterCmd
deriving DecidableEq, Repr

/-- VtsComposerClient::createLayer (lines 96-114): batched mode allocates the
next local id, appends a CREATE record and a buffer-slot-count record to the
pending buffer and registers ownership; unbatched mode issues a synchronous
remote create and registers the remote-assigned id on success. -/
def createLayer (env : Remote) (s : ClientState) (display bufferSlotCount : Int) :
    CreateLayerOut :=
  if s.supportsBatchedCreateLayer then
    let layer := s.nextLayerHandle
    let s1 : ClientState := { s with nextLayerHandle := s.nextLayerHandle + 1 }
    let add := addLayerToDisplayResources s1.displayResources display layer
    { status := add.1
    , layer := layer
    , state := { s1 with displayResources := add.2 }
    , calls := []
    , writes := [WriterCmd.lifecycleBatch display layer LayerLifecycleBatchCommandType.CREATE,
                 WriterCmd.newBufferSlotCount display layer bufferSlotCount] }
  else
    let r := env.createLayerR display bufferSlotCount
    if r.1.isOk then
      let add := addLayerToDisplayResources s.displayResources display r.2
      { status := add.1
      , layer := r.2
      , state := { s with displayResources := add.2 }
      , calls := [RemoteCall.createLayer display bufferSlotCount]
      , writes := [] }
    else
      { status := r.1
      , layer := r.2
      , state := s
      , calls := [RemoteCall.createLayer display bufferSlotCount]
      , writes := [] }

/-- Result of an embedded state-mutating call that returns only a status. -/
structure StatusOut where
  status : Status
  state : ClientState
  calls : List RemoteCall
  writes : List WriterCmd
deriving DecidableEq, Repr

/-- VtsComposerClient::destroyLayer (lines 116-130): batched mode appends a
DESTROY record; unbatched mode issues a synchronous remote destroy and
returns early on failure. Only afterwards is ownership removed. -/
def destroyLayer (env : Remote) (s : ClientState) (display layer : Int) : StatusOut :=
  if s.supportsBatchedCreateLayer then
    { status := Status.ok
    , state := { s with
        displayResources := removeLayerFromDisplayResources s.displayResources display layer }
    , calls := []
    , writes := [WriterCmd.lifecycleBatch display layer LayerLifecycleBatchCommandType.DESTROY] }
  else
    let st := env.destroyLayerR display layer
    if st.isOk then
      { status := Status.ok
      , state := { s with
          displayResources := removeLayerFromDisplayResources s.displayResources display layer }
      , calls := [RemoteCall.destroyLayer display layer]
      , writes := [] }
    else
      { status := st
      , state := s
      , calls := [RemoteCall.destroyLayer display layer]
      , writes := [] }

/-- VtsComposerClient::destroyVirtualDisplay (lines 87-94): erase the entry
only after the remote destroy succeeds. -/
def destroyVirtualDisplay (env : Remote) (s : ClientState) (display : Int) : StatusOut :=
  let st := env.destroyVirtualDisplayR display
  if st.isOk then
    { status := st
    , state := { s with displayResources := eraseDisplay s.displayResources display }
    , calls := [RemoteCall.destroyVirtualDisplay display]
    , writes := [] }
  else
    { status := st
    , state := s
    , calls := [RemoteCall.destroyVirtualDisplay display]
    , writes := [] }

/-- VtsComposerClient::getDisplayConfigs (lines 318-333): branch on
getDisplayConfigurationSupported; the legacy branch returns the raw config
ids from the remote, the extended branch projects the configIds out of the
extended records. -/
def getDisplayConfigs (env : Remote) (display : Int) :
    (Status × List Int) × List RemoteCall :=
  let sup := getDisplayConfigurationSupported env
  if sup.1 then
    let r := env.getDisplayConfigurationsR display
    let calls := sup.2 ++ [RemoteCall.getDisplayConfigurations display]
    if r.1.isOk then ((r.1, r.2.map DisplayConfiguration.configId), calls)
    else ((r.1, []), calls)
  else
    (env.getDisplayConfigsR display, sup.2 ++ [RemoteCall.getDisplayConfigs display])

/-- Modelled from the spec: per-config data stored by a VtsDisplay
(declared in VtsComposerClient.h, which is not among the sources):
vsync period, config group and an optional variable-refresh-rate config. -/
structure DisplayConfig where
  vsyncPeriod : Int
  configGroup : Int
  vrrConfig : Option Int
deriving DecidableEq, Repr

/-- Modelled from the spec: the VtsDisplay aggregate (declared in
VtsComposerClient.h, which is not among the sources): a display id, its
width/height, and its configId-to-DisplayConfig mapping. -/
structure VtsDisplay where
  displayId : Int
  width : Int
  height : Int
  displayConfigs : List (Int × DisplayConfig)
deriving DecidableEq, Repr

/-- Insert-or-replace into the configId-to-DisplayConfig mapping. -/
def upsertConfig : List (Int × DisplayConfig) → Int → DisplayConfig → List (Int × DisplayConfig)
  | [], config, dc => [(config, dc)]
  | (c, d0) :: rest, config, dc =>
    if config = c then (config, dc) :: rest else (c, d0) :: upsertConfig rest config dc

/-- Modelled from the spec: VtsDisplay::addDisplayConfig records a
DisplayConfig under its configId. -/
def VtsDisplay.addDisplayConfig (vd : VtsDisplay) (config : Int) (dc : DisplayConfig) :
    VtsDisplay :=
  { vd with displayConfigs := upsertConfig vd.displayConfigs config dc }

/-- Modelled from the spec: VtsDisplay::setDimensions copies a width and
height onto the display record. -/
def VtsDisplay.setDimensions (vd : VtsDisplay) (width height : Int) : VtsDisplay :=
  { vd with width := width, height := height }

/-- VtsComposerClient::addDisplayConfigs (lines 540-546): record every
extended configuration on the display. -/
def addDisplayConfigs (vd : VtsDisplay) (configs : List DisplayConfiguration) : VtsDisplay :=
  configs.foldl
    (fun v c => v.addDisplayConfig c.configId
      { vsyncPeriod := c.vsyncPeriod, configGroup := c.configGroup, vrrConfig := c.vrrConfig })
    vd

/-- VtsComposerClient::addDisplayConfigLegacy (lines 548-561): query the vsync
period and the config group attributes; on both succeeding record the config,
otherwise return EX_BAD_CONFIG. -/
def addDisplayConfigLegacy (env : Remote) (vd : VtsDisplay) (config : Int) :
    Status × VtsDisplay × List RemoteCall :=
  let vsyncPeriod := env.getDisplayAttributeR vd.displayId config DisplayAttribute.VSYNC_PERIOD
  let configGroup := env.getDisplayAttributeR vd.displayId config DisplayAttribute.CONFIG_GROUP
  let calls := [RemoteCall.getDisplayAttribute vd.displayId config DisplayAttribute.VSYNC_PERIOD,
                RemoteCall.getDisplayAttribute vd.displayId config DisplayAttribute.CONFIG_GROUP]
  if vsyncPeriod.1.isOk && configGroup.1.isOk then
    (Status.ok,
     vd.addDisplayConfig config
       { vsyncPeriod := vsyncPeriod.2, configGroup := configGroup.2, vrrConfig := none },
     calls)
  else
    (Status.error EX_BAD_CONFIG, vd, calls)

/-- VtsComposerClient::updateDisplayProperties (lines 563-589): resolve the
width and height of a config via the extended records (version >= 3) or via
two attribute queries (legacy); every failure is collapsed into EX_BAD_CONFIG. -/
def updateDisplayProperties (env : Remote) (vd : VtsDisplay) (config : Int) :
    Status × VtsDisplay × List RemoteCall :=
  let sup := getDisplayConfigurationSupported env
  if sup.1 then
    let r := env.getDisplayConfigurationsR vd.displayId
    let calls := sup.2 ++ [RemoteCall.getDisplayConfigurations vd.displayId]
    if r.1.isOk then
      match r.2.find? (fun dc => dc.configId == config) with
      | some dc => (Status.ok, vd.setDimensions dc.width dc.height, calls)
      | none => (Status.error EX_BAD_CONFIG, vd, calls)
    else (Status.error EX_BAD_CONFIG, vd, calls)
  else
    let width := env.getDisplayAttributeR vd.displayId config DisplayAttribute.WIDTH
    let height := env.getDisplayAttributeR vd.displayId config DisplayAttribute.HEIGHT
    let calls := sup.2 ++
      [RemoteCall.getDisplayAttribute vd.displayId config DisplayAttribute.WIDTH,
       RemoteCall.getDisplayAttribute vd.displayId config DisplayAttribute.HEIGHT]
    if width.1.isOk && height.1.isOk then
      (Status.ok, vd.setDimensions width.2 height.2, calls)
    else (Status.error EX_BAD_CONFIG, vd, calls)

/-- The legacy config loop of VtsComposerClient::getDisplays (lines 506-514):
addDisplayConfigLegacy for each raw config id, aborting on the first failure. -/
def addDisplayConfigsLegacyLoop (env : Remote) :
    VtsDisplay → List Int → Status × VtsDisplay × List RemoteCall
  | vd, [] => (Status.ok, vd, [])
  | vd, c :: rest =>
    let r := addDisplayConfigLegacy env vd c
    if r.1.isOk then
      let r2 := addDisplayConfigsLegacyLoop env r.2.1 rest
      (r2.1, r2.2.1, r.2.2 ++ r2.2.2)
    else
      (r.1, r.2.1, r.2.2)

/-- The per-display configuration-resolution step of
VtsComposerClient::getDisplays (lines 488-515): construct the VtsDisplay,
then populate its configs through the extended query (version >= 3) or
through the legacy path (raw config ids plus per-attribute queries). -/
def resolveDisplayConfigs (env : Remote) (display : Int) :
    Status × VtsDisplay × List RemoteCall :=
  let vd : VtsDisplay := { displayId := display, width := 0, height := 0, displayConfigs := [] }
  let sup := getDisplayConfigurationSupported env
  if sup.1 then
    let r := env.getDisplayConfigurationsR display
    let calls := sup.2 ++ [RemoteCall.getDisplayConfigurations display]
    if r.1.isOk then (Status.ok, addDisplayConfigs vd r.2, calls)
    else (r.1, vd, calls)
  else
    let cfgs := getDisplayConfigs env display
    if cfgs.1.1.isOk then
      let r := addDisplayConfigsLegacyLoop env vd cfgs.1.2
      (r.1, r.2.1, sup.2 ++ cfgs.2 ++ r.2.2)
    else
      (cfgs.1.1, vd, sup.2 ++ cfgs.2)

/-- The six anomalous-event counters of the GraphicsComposerCallback event
collector that verifyComposerCallbackParams inspects. -/
structure CallbackCounts where
  invalidHotplugCount : Nat
  invalidRefreshCount : Nat
  invalidVsyncCount : Nat
  invalidVsyncPeriodChangeCount : Nat
  invalidSeamlessPossibleCount : Nat
  invalidRefreshRateDebugEnabledCallbackCount : Nat
deriving DecidableEq, Repr

/-- VtsComposerClient::verifyComposerCallbackParams (lines 620-649): valid
exactly when the callback is absent or every anomalous counter is zero. -/
def verifyComposerCallbackParams (cb : Option CallbackCounts) : Bool :=
  match cb with
  | none => true
  | some c =>
    (c.invalidHotplugCount == 0) && (c.invalidRefreshCount == 0) &&
    (c.invalidVsyncCount == 0) && (c.invalidVsyncPeriodChangeCount == 0) &&
    (c.invalidSeamlessPossibleCount == 0) &&
    (c.invalidRefreshRateDebugEnabledCallbackCount == 0)

/-- Result of draining one display's layer list inside destroyAllLayers. -/
structure DrainLayersOut where
  status : Status
  remaining : List Int
  calls : List RemoteCall
  writes : List WriterCmd
deriving DecidableEq, Repr

/-- The inner while-loop of VtsComposerClient::destroyAllLayers (lines
664-672): destroy the first owned layer (via destroyLayer) until the set is
empty or a destroy fails. Batched destroys always succeed and append DESTROY
records; unbatched destroys stop at the first remote failure. -/
def drainLayers (env : Remote) (batched : Bool) (display : Int) :
    List Int → DrainLayersOut
  | [] => { status := Status.ok, remaining := [], calls := [], writes := [] }
  | layer :: rest =>
    if batched then
      let r := drainLayers env batched display rest
      { r with
        writes := WriterCmd.lifecycleBatch display layer LayerLifecycleBatchCommandType.DESTROY
          :: r.writes }
    else
      let st := env.destroyLayerR display layer
      if st.isOk then
        let r := drainLayers env batched display rest
        { r with calls := RemoteCall.destroyLayer display layer :: r.calls }
      else
        { status := st
        , remaining := layer :: rest
        , calls := [RemoteCall.destroyLayer display layer]
        , writes := [] }

/-- Result of destroyAllLayers / tearDown. -/
structure TearDownOut where
  result : Bool
  state : ClientState
  calls : List RemoteCall
  writes : List WriterCmd
deriving DecidableEq, Repr

/-- Result of the destroyAllLayers drain over the registry list. -/
structure DrainOut where
  result : Bool
  registry : Registry
  calls : List RemoteCall
  writes : List WriterCmd
deriving DecidableEq, Repr

/-- The outer while-loop of VtsComposerClient::destroyAllLayers (lines
658-689): take the first registry entry, drain its layers, then destroy the
display if virtual or set it aside into `physicalDisplays` if physical. When
the registry is exhausted the code executes
`mDisplayResources.swap(physicalDisplays)` followed by
`mDisplayResources.clear()`, so the registry ends empty. -/
def destroyAllLayersGo (env : Remote) (batched : Bool) :
    Registry → Registry → DrainOut
  | [], physicalDisplays =>
    let registryAfterSwap := physicalDisplays
    let _ := registryAfterSwap
    let registryAfterClear : Registry := []
    { result := true, registry := registryAfterClear, calls := [], writes := [] }
  | (display, resource) :: rest, physicalDisplays =>
    let dr := drainLayers env batched display resource.layers
    if dr.status.isOk then
      if resource.isVirtual then
        let st := env.destroyVirtualDisplayR display
        let calls := dr.calls ++ [RemoteCall.destroyVirtualDisplay display]
        if st.isOk then
          let out := destroyAllLayersGo env batched rest physicalDisplays
          { out with calls := calls ++ out.calls, writes := dr.writes ++ out.writes }
        else
          { result := false
          , registry := (display, { resource with layers := [] }) :: rest
          , calls := calls
          , writes := dr.writes }
      else
        let out := destroyAllLayersGo env batched rest
          (physicalDisplays ++ [(display, { resource with layers := [] })])
        { out with calls := dr.calls ++ out.calls, writes := dr.writes ++ out.writes }
    else
      { result := false
      , registry := (display, { resource with layers := dr.remaining }) :: rest
      , calls := dr.calls
      , writes := dr.writes }

/-- VtsComposerClient::destroyAllLayers (lines 658-689) on the session state. -/
def destroyAllLayers (env : Remote) (s : ClientState) : TearDownOut :=
  let out := destroyAllLayersGo env s.supportsBatchedCreateLayer s.displayResources []
  { result := out.result
  , state := { s with displayResources := out.registry }
  , calls := out.calls
  , writes := out.writes }

/-- VtsComposerClient::tearDown (lines 65-67):
`verifyComposerCallbackParams() && destroyAllLayers(writer)` with the
short-circuit evaluation of the C++ `&&` operator. -/
def tearDown (env : Remote) (cb : Option CallbackCounts) (s : ClientState) : TearDownOut :=
  if verifyComposerCallbackParams cb then destroyAllLayers env s
  else { result := false, state := s, calls := [], writes := [] }

/-- A concrete remote environment in which every call succeeds. -/
def envA : Remote :=
  { interfaceVersionR := (Status.ok, 2)
  , capabilitiesR := (Status.ok, [Capability.LAYER_LIFECYCLE_BATCH_COMMAND])
  , createLayerR := fun _ _ => (Status.ok, 42)
  , destroyLayerR := fun _ _ => Status.ok
  , destroyVirtualDisplayR := fun _ => Status.ok
  , getDisplayAttributeR := fun _ config _ => (Status.ok, config + 100)
  , getDisplayConfigsR := fun _ => (Status.ok, [0, 1])
  , getDisplayConfigurationsR := fun _ => (Status.ok, []) }

/-- A concrete remote environment in which attribute and config queries fail
with error 7 and the create/destroy calls fail with error 5. -/
def envB : Remote :=
  { interfaceVersionR := (Status.ok, 2)
  , capabilitiesR := (Status.ok, [])
  , createLayerR := fun _ _ => (Status.error 5, 0)
  , destroyLayerR := fun _ _ => Status.error 5
  , destroyVirtualDisplayR := fun _ => Status.error 5
  , getDisplayAttributeR := fun _ _ _ => (Status.error 7, 0)
  , getDisplayConfigsR := fun _ => (Status.error 7, [])
  , getDisplayConfigurationsR := fun _ => (Status.error 7, []) }

/-- Callback counters with a single invalid-hotplug anomaly recorded. -/
def anomalyCounts : CallbackCounts :=
  { invalidHotplugCount := 1, invalidRefreshCount := 0, invalidVsyncCount := 0
  , invalidVsyncPeriodChangeCount := 0, invalidSeamlessPossibleCount := 0
  , invalidRefreshRateDebugEnabledCallbackCount := 0 }

/-- Callback counters with no anomaly recorded. -/
def zeroCounts : CallbackCounts :=
  { invalidHotplugCount := 0, invalidRefreshCount := 0, invalidVsyncCount := 0
  , invalidVsyncPeriodChangeCount := 0, invalidSeamlessPossibleCount := 0
  , invalidRefreshRateDebugEnabledCallbackCount := 0 }

/-- A session holding a single physical display (id 1) with no layers, in
unbatched mode. -/
def physOnlyState : ClientState :=
  { supportsBatchedCreateLayer := false
  , nextLayerHandle := 1
  , displayResources := [(1, { isVirtual := false, layers := [] })] }

/-- A session holding a single physical display (id 1) owning layer 2, in
unbatched mode. -/
def physLayerState : ClientState :=
  { supportsBatchedCreateLayer := false
  , nextLayerHandle := 1
  , displayResources := [(1, { isVirtual := false, layers := [2] })] }

/-- A session holding a single virtual display (id 7) owning layer 9, in
unbatched mode. -/
def virtualLayerState : ClientState :=
  { supportsBatchedCreateLayer := false
  , nextLayerHandle := 1
  , displayResources := [(7, { isVirtual := true, layers := [9] })] }

/-- A fresh session in batched mode with an empty registry. -/
def batchedState : ClientState :=
  { supportsBatchedCreateLayer := true
  , nextLayerHandle := 1
  , displayResources := [] }

/-- An empty VtsDisplay for display id 1. -/
def vd0 : VtsDisplay := { displayId := 1, width := 0, height := 0, displayConfigs := [] }

/-- A display id is absent from the keys exactly when the lookup misses. -/
lemma findDisplay_eq_none_iff {m : Registry} {d : Int} :
    findDisplay m d = none ↔ d ∉ registryKeys m := by
  induction m with
  | nil => simp [findDisplay, registryKeys]
  | cons p rest ih =>
    obtain ⟨d1, r⟩ := p
    by_cases hd : d = d1
    · subst hd
      simp [findDisplay, registryKeys]
    · simp [findDisplay, registryKeys, hd, ih]

/-- A successful lookup returns an entry of the registry. -/
lemma findDisplay_mem {m : Registry} {d : Int} {r : DisplayResource}
    (h : findDisplay m d = some r) : (d, r) ∈ m := by
  induction m with
  | nil => simp [findDisplay] at h
  | cons p rest ih =>
    obtain ⟨d1, r1⟩ := p
    by_cases hd : d = d1
    · subst hd
      simp [findDisplay] at h
      simp [h]
    · simp [findDisplay, hd] at h
      simp [ih h]

/-- Updating a display entry does not change the key list. -/
lemma registryKeys_updateDisplay (m : Registry) (d : Int) (r : DisplayResource) :
    registryKeys (updateDisplay m d r) = registryKeys m := by
  induction m with
  | nil => simp [updateDisplay]
  | cons p rest ih =>
    obtain ⟨d1, r1⟩ := p
    by_cases hd : d = d1
    · subst hd
      simp [updateDisplay, registryKeys]
    · simp [updateDisplay, registryKeys, hd] at ih ⊢
      exact ih

/-- Every entry of an updated registry is either the new entry or an entry of
the original registry. -/
lemma mem_updateDisplay {m : Registry} {d : Int} {r : DisplayResource}
    {p : Int × DisplayResource} (h : p ∈ updateDisplay m d r) : p = (d, r) ∨ p ∈ m := by
  induction m with
  | nil => simp [updateDisplay] at h
  | cons q rest ih =>
    obtain ⟨d1, r1⟩ := q
    by_cases hd : d = d1
    · subst hd
      simp [updateDisplay] at h
      rcases h with h | h
      · exact Or.inl (by simp [h])
      · exact Or.inr (by simp [h])
    · simp [updateDisplay, hd] at h
      rcases h with h | h
      · exact Or.inr (by simp [h])
      · rcases ih h with h2 | h2
        · exact Or.inl h2
        · exact Or.inr (by simp [h2])

/-- Erasing a display only removes keys. -/
lemma registryKeys_eraseDisplay_sublist (m : Registry) (d : Int) :
    List.Sublist (registryKeys (eraseDisplay m d)) (registryKeys m) := by
  induction m with
  | nil => simp [eraseDisplay]
  | cons p rest ih =>
    obtain ⟨d1, r1⟩ := p
    by_cases hd : d = d1
    · subst hd
      simp [eraseDisplay, registryKeys]
    · simp [eraseDisplay, registryKeys, hd]
      simpa [registryKeys] using ih

/-- A lookup past entries that miss the key. -/
lemma findDisplay_append_none {m m2 : Registry} {d : Int} (h : findDisplay m d = none) :
    findDisplay (m ++ m2) d = findDisplay m2 d := by
  induction m with
  | nil => simp
  | cons p rest ih =>
    obtain ⟨d1, r1⟩ := p
    by_cases hd : d = d1
    · simp [findDisplay, hd] at h
    · simp [findDisplay, hd] at h ⊢
      exact ih h

/-- An update past entries that miss the key. -/
lemma updateDisplay_append_none {m m2 : Registry} {d : Int} (h : findDisplay m d = none)
    (r : DisplayResource) : updateDisplay (m ++ m2) d r = m ++ updateDisplay m2 d r := by
  induction m with
  | nil => simp
  | cons p rest ih =>
    obtain ⟨d1, r1⟩ := p
    by_cases hd : d = d1
    · simp [findDisplay, hd] at h
    · simp [findDisplay, hd] at h
      simp [updateDisplay, hd, ih h]

/-- Re-storing the value a lookup produced leaves the registry unchanged. -/
lemma updateDisplay_self {m : Registry} {d : Int} {r : DisplayResource}
    (h : findDisplay m d = some r) : updateDisplay m d r = m := by
  induction m with
  | nil => simp [findDisplay] at h
  | cons p rest ih =>
    obtain ⟨d1, r1⟩ := p
    by_cases hd : d = d1
    · subst hd
      simp [findDisplay] at h
      simp [updateDisplay, h]
    · simp [findDisplay, hd] at h
      simp [updateDisplay, hd, ih h]

/-- A lookup after updating the looked-up display returns the new value. -/
lemma findDisplay_updateDisplay_self {m : Registry} {d : Int} {r : DisplayResource}
    (h : findDisplay m d = some r) (r2 : DisplayResource) :
    findDisplay (updateDisplay m d r2) d = some r2 := by
  induction m with
  | nil => simp [findDisplay] at h
  | cons p rest ih =>
    obtain ⟨d1, r1⟩ := p
    by_cases hd : d = d1
    · subst hd
      simp [updateDisplay, findDisplay]
    · simp [findDisplay, hd] at h
      simp [updateDisplay, findDisplay, hd, ih h]

/-- Adding a layer under an unknown display inserts a placeholder entry that
ends up owning exactly that layer. -/
lemma addLayer_none {m : Registry} {display : Int} (h : findDisplay m display = none)
    (l : Int) :
    addLayerToDisplayResources m display l =
      (Status.ok, m ++ [(display, { isVirtual := false, layers := [l] })]) := by
  simp only [addLayerToDisplayResources, h]
  rw [updateDisplay_append_none h]
  simp [updateDisplay]

/-- Adding a layer id not yet owned by the display succeeds and appends it to
the display's layer list. -/
lemma addLayer_fresh {m : Registry} {display l : Int} (h : l ∉ layersOf m display) :
    (addLayerToDisplayResources m display l).1 = Status.ok ∧
    layersOf (addLayerToDisplayResources m display l).2 display =
      layersOf m display ++ [l] := by
  cases hf : findDisplay m display with
  | none =>
    rw [addLayer_none hf]
    simp [layersOf, hf, findDisplay_append_none hf, findDisplay]
  | some r =>
    have hl : l ∉ r.layers := by simpa [layersOf, hf] using h
    simp [addLayerToDisplayResources, hf, hl, layersOf,
          findDisplay_updateDisplay_self hf]

/-- Adding a layer id already owned by the display fails with EX_BAD_LAYER
and leaves the registry unchanged. -/
lemma addLayer_dup {m : Registry} {display l : Int} (h : l ∈ layersOf m display) :
    addLayerToDisplayResources m display l = (Status.error EX_BAD_LAYER, m) := by
  cases hf : findDisplay m display with
  | none => simp [layersOf, hf] at h
  | some r =>
    have hl : l ∈ r.layers := by simpa [layersOf, hf] using h
    simp [addLayerToDisplayResources, hf, hl]

/-- Removing a layer under an unknown display is a no-op. -/
lemma removeLayer_absent_display {m : Registry} {display : Int}
    (h : findDisplay m display = none) (l : Int) :
    removeLayerFromDisplayResources m display l = m := by
  simp [removeLayerFromDisplayResources, h]

/-- Removing a layer id not owned by the display is a no-op. -/
lemma removeLayer_absent_layer {m : Registry} {display l : Int}
    (h : l ∉ layersOf m display) :
    removeLayerFromDisplayResources m display l = m := by
  cases hf : findDisplay m display with
  | none => simp [removeLayerFromDisplayResources, hf]
  | some r =>
    have hl : l ∉ r.layers := by simpa [layersOf, hf] using h
    simp only [removeLayerFromDisplayResources, hf, List.erase_of_not_mem hl]
    exact updateDisplay_self hf

/-- A registry operation of claim C6: add a display or remove a display. -/
inductive RegOp where
  | addDisplay (display : Int) (isVirtual : Bool)
  | removeDisplay (display : Int)

/-- Apply one display-level registry operation: addDisplay is
addDisplayToDisplayResources, removeDisplay is the `mDisplayResources.erase`
of destroyVirtualDisplay (line 92). -/
def applyRegOp (m : Registry) : RegOp → Registry
  | .addDisplay d v => (addDisplayToDisplayResources m d v).2
  | .removeDisplay d => eraseDisplay m d

/-- Apply a sequence of display-level registry operations. -/
def applyRegOps (m : Registry) (ops : List RegOp) : Registry :=
  ops.foldl applyRegOp m

/-- One display-level operation preserves key uniqueness. -/
lemma registryKeys_nodup_applyRegOp {m : Registry} (h : (registryKeys m).Nodup)
    (op : RegOp) : (registryKeys (applyRegOp m op)).Nodup := by
  cases op with
  | addDisplay d v =>
    cases hf : findDisplay m d with
    | some r => simpa [applyRegOp, addDisplayToDisplayResources, hf] using h
    | none =>
      have hd : d ∉ registryKeys m := findDisplay_eq_none_iff.mp hf
      simp only [applyRegOp, addDisplayToDisplayResources, hf]
      simp only [registryKeys, List.map_append, List.map_cons, List.map_nil] at *
      simp [List.nodup_append, h, hd]
  | removeDisplay d =>
    exact h.sublist (registryKeys_eraseDisplay_sublist m d)

/-- A sequence of display-level operations preserves key uniqueness. -/
lemma registryKeys_nodup_applyRegOps {m : Registry} (h : (registryKeys m).Nodup)
    (ops : List RegOp) : (registryKeys (applyRegOps m ops)).Nodup := by
  induction ops generalizing m with
  | nil => simpa [applyRegOps] using h
  | cons op rest ih =>
    simp only [applyRegOps, List.foldl_cons]
    exact ih (registryKeys_nodup_applyRegOp h op)

/-- Claim C6: across every sequence of addDisplay/removeDisplay operations
the registry never holds two entries with the same display id; adding a
present id fails with EX_BAD_DISPLAY and leaves the registry unchanged, and
adding an absent id appends an empty resource entry. -/
theorem registry_display_ids_unique (ops : List RegOp) (m : Registry) (d : Int)
    (v : Bool) :
    (registryKeys (applyRegOps [] ops)).Nodup ∧
    (d ∈ registryKeys m →
      addDisplayToDisplayResources m d v = (Status.error EX_BAD_DISPLAY, m)) ∧
    (d ∉ registryKeys m →
      addDisplayToDisplayResources m d v =
        (Status.ok, m ++ [(d, { isVirtual := v, layers := [] })])) := by
  refine ⟨registryKeys_nodup_applyRegOps (by simp [registryKeys]) ops,
    fun hmem => ?_, fun hno => ?_⟩
  · cases hf : findDisplay m d with
    | none => exact absurd hmem (findDisplay_eq_none_iff.mp hf)
    | some r => simp [addDisplayToDisplayResources, hf]
  · have hf : findDisplay m d = none := findDisplay_eq_none_iff.mpr hno
    simp [addDisplayToDisplayResources, hf]

/-- Witness for claim C6: a concrete operation sequence with a duplicate
insert and a remove, plus a duplicate add and a fresh add on a concrete
registry. -/
theorem registry_display_ids_unique_witness :
    (registryKeys (applyRegOps []
      [RegOp.addDisplay 1 false, RegOp.addDisplay 2 true, RegOp.addDisplay 1 true,
       RegOp.removeDisplay 2, RegOp.addDisplay 2 false])).Nodup ∧
    (1 : Int) ∈ registryKeys physOnlyState.displayResources ∧
    addDisplayToDisplayResources physOnlyState.displayResources 1 false =
      (Status.error EX_BAD_DISPLAY, physOnlyState.displayResources) ∧
    (2 : Int) ∉ registryKeys physOnlyState.displayResources ∧
    addDisplayToDisplayResources physOnlyState.displayResources 2 true =
      (Status.ok,
       physOnlyState.displayResources ++ [(2, { isVirtual := true, layers := [] })]) :=
  ⟨(registry_display_ids_unique
      [RegOp.addDisplay 1 false, RegOp.addDisplay 2 true, RegOp.addDisplay 1 true,
       RegOp.removeDisplay 2, RegOp.addDisplay 2 false]
      physOnlyState.displayResources 1 false).1,
   by decide,
   (registry_display_ids_unique [] physOnlyState.displayResources 1 false).2.1 (by decide),
   by decide,
   (registry_display_ids_unique [] physOnlyState.displayResources 2 true).2.2 (by decide)⟩

/-- A registry operation of claim C7: add or remove a layer under a display. -/
inductive LayerOp where
  | addLayer (layer : Int)
  | removeLayer (layer : Int)

/-- Apply one layer-level registry operation under a fixed display. -/
def applyLayerOp (display : Int) (m : Registry) : LayerOp → Registry
  | .addLayer l => (addLayerToDisplayResources m display l).2
  | .removeLayer l => removeLayerFromDisplayResources m display l

/-- Apply a sequence of layer-level operations under a fixed display. -/
def applyLayerOps (display : Int) (m : Registry) (ops : List LayerOp) : Registry :=
  ops.foldl (applyLayerOp display) m

/-- Every layer list in the registry is duplicate-free. -/
def registryLayersNodup (m : Registry) : Prop :=
  ∀ p ∈ m, (Prod.snd p).layers.Nodup

/-- One layer-level operation preserves duplicate-freedom of all layer lists. -/
lemma registryLayersNodup_applyLayerOp {m : Registry} (h : registryLayersNodup m)
    (display : Int) (op : LayerOp) : registryLayersNodup (applyLayerOp display m op) := by
  cases op with
  | addLayer l =>
    simp only [applyLayerOp]
    cases hf : findDisplay m display with
    | none =>
      rw [addLayer_none hf]
      intro p hp
      rcases List.mem_append.mp hp with hpm | hpx
      · exact h p hpm
      · simp at hpx
        subst hpx
        simp
    | some r =>
      by_cases hl : l ∈ r.layers
      · simpa [addLayerToDisplayResources, hf, hl] using h
      · simp only [addLayerToDisplayResources, hf, if_neg hl]
        intro p hp
        rcases mem_updateDisplay hp with hpe | hpm
        · subst hpe
          simp [List.nodup_append]
          exact ⟨h _ (findDisplay_mem hf), hl⟩
        · exact h p hpm
  | removeLayer l =>
    simp only [applyLayerOp, removeLayerFromDisplayResources]
    cases hf : findDisplay m display with
    | none => exact h
    | some r =>
      intro p hp
      rcases mem_updateDisplay hp with hpe | hpm
      · subst hpe
        exact (h _ (findDisplay_mem hf)).erase l
      · exact h p hpm

/-- A sequence of layer-level operations preserves duplicate-freedom. -/
lemma registryLayersNodup_applyLayerOps {m : Registry} (h : registryLayersNodup m)
    (display : Int) (ops : List LayerOp) :
    registryLayersNodup (applyLayerOps display m ops) := by
  induction ops generalizing m with
  | nil => simpa [applyLayerOps] using h
  | cons op rest ih =>
    simp only [applyLayerOps, List.foldl_cons]
    exact ih (registryLayersNodup_applyLayerOp h display op)

/-- Duplicate-freedom of the layer list of any one display. -/
lemma layersOf_nodup {m : Registry} (h : registryLayersNodup m) (display : Int) :
    (layersOf m display).Nodup := by
  cases hf : findDisplay m display with
  | none => simp [layersOf, hf]
  | some r => simpa [layersOf, hf] using h _ (findDisplay_mem hf)

/-- Claim C7: across every sequence of addLayer/removeLayer operations under
one display the owned layer set never contains duplicates; adding an owned
layer id fails with EX_BAD_LAYER and leaves the registry unchanged, and
removeLayer on an absent display or absent layer id is a no-op. -/
theorem registry_layer_ids_unique (ops : List LayerOp) (m : Registry) (d l : Int) :
    (layersOf (applyLayerOps d [] ops) d).Nodup ∧
    (l ∈ layersOf m d →
      addLayerToDisplayResources m d l = (Status.error EX_BAD_LAYER, m)) ∧
    (findDisplay m d = none → removeLayerFromDisplayResources m d l = m) ∧
    (l ∉ layersOf m d → removeLayerFromDisplayResources m d l = m) :=
  ⟨layersOf_nodup
      (registryLayersNodup_applyLayerOps (fun p hp => absurd hp (List.not_mem_nil p)) d ops) d,
   fun h => addLayer_dup h,
   fun h => removeLayer_absent_display h l,
   fun h => removeLayer_absent_layer h⟩

/-- Witness for claim C7: a concrete operation sequence with duplicate adds
and removes, plus the no-op removals on a concrete registry. -/
theorem registry_layer_ids_unique_witness :
    (layersOf (applyLayerOps 1 []
      [LayerOp.addLayer 2, LayerOp.addLayer 3, LayerOp.addLayer 2,
       LayerOp.removeLayer 2, LayerOp.addLayer 2]) 1).Nodup ∧
    (2 : Int) ∈ layersOf physLayerState.displayResources 1 ∧
    addLayerToDisplayResources physLayerState.displayResources 1 2 =
      (Status.error EX_BAD_LAYER, physLayerState.displayResources) ∧
    findDisplay physLayerState.displayResources 5 = none ∧
    removeLayerFromDisplayResources physLayerState.displayResources 5 2 =
      physLayerState.displayResources ∧
    (3 : Int) ∉ layersOf physLayerState.displayResources 1 ∧
    removeLayerFromDisplayResources physLayerState.displayResources 1 3 =
      physLayerState.displayResources :=
  ⟨(registry_layer_ids_unique
      [LayerOp.addLayer 2, LayerOp.addLayer 3, LayerOp.addLayer 2,
       LayerOp.removeLayer 2, LayerOp.addLayer 2] physLayerState.displayResources 1 2).1,
   by decide,
   (registry_layer_ids_unique [] physLayerState.displayResources 1 2).2.1 (by decide),
   by decide,
   (registry_layer_ids_unique [] physLayerState.displayResources 5 2).2.2.1 (by decide),
   by decide,
   (registry_layer_ids_unique [] physLayerState.displayResources 1 3).2.2.2 (by decide)⟩

/-- The components of a batched createLayer call. -/
lemma createLayer_batched (env : Remote) (s : ClientState) (d n : Int)
    (hb : s.supportsBatchedCreateLayer = true) :
    (createLayer env s d n).layer = s.nextLayerHandle ∧
    (createLayer env s d n).status =
      (addLayerToDisplayResources s.displayResources d s.nextLayerHandle).1 ∧
    (createLayer env s d n).state.supportsBatchedCreateLayer = true ∧
    (createLayer env s d n).state.nextLayerHandle = s.nextLayerHandle + 1 ∧
    (createLayer env s d n).state.displayResources =
      (addLayerToDisplayResources s.displayResources d s.nextLayerHandle).2 ∧
    (createLayer env s d n).calls = [] ∧
    (createLayer env s d n).writes =
      [WriterCmd.lifecycleBatch d s.nextLayerHandle LayerLifecycleBatchCommandType.CREATE,
       WriterCmd.newBufferSlotCount d s.nextLayerHandle n] := by
  simp [createLayer, hb]

/-- Claim C8: in batched mode two consecutive createLayer calls on one
display succeed with two distinct, strictly increasing, locally generated
layer ids, both registered under that display; neither call issues a remote
call, and each appends exactly a CREATE record and a buffer-slot-count record
to the pending buffer. The generating counter starts above zero at session
construction. -/
theorem batched_createLayer_monotonic_ids (env : Remote) (s : ClientState) (d n : Int)
    (hb : s.supportsBatchedCreateLayer = true)
    (h1 : s.nextLayerHandle ∉ layersOf s.displayResources d)
    (h2 : s.nextLayerHandle + 1 ∉ layersOf s.displayResources d) :
    (createLayer env s d n).status = Status.ok ∧
    (createLayer env s d n).layer = s.nextLayerHandle ∧
    (createLayer env (createLayer env s d n).state d n).status = Status.ok ∧
    (createLayer env (createLayer env s d n).state d n).layer = s.nextLayerHandle + 1 ∧
    (createLayer env s d n).layer <
      (createLayer env (createLayer env s d n).state d n).layer ∧
    (createLayer env s d n).layer ∈
      layersOf (createLayer env (createLayer env s d n).state d n).state.displayResources d ∧
    (createLayer env (createLayer env s d n).state d n).layer ∈
      layersOf (createLayer env (createLayer env s d n).state d n).state.displayResources d ∧
    (createLayer env s d n).calls = [] ∧
    (createLayer env (createLayer env s d n).state d n).calls = [] ∧
    (createLayer env s d n).writes =
      [WriterCmd.lifecycleBatch d s.nextLayerHandle LayerLifecycleBatchCommandType.CREATE,
       WriterCmd.newBufferSlotCount d s.nextLayerHandle n] ∧
    (createLayer env (createLayer env s d n).state d n).writes =
      [WriterCmd.lifecycleBatch d (s.nextLayerHandle + 1)
         LayerLifecycleBatchCommandType.CREATE,
       WriterCmd.newBufferSlotCount d (s.nextLayerHandle + 1) n] ∧
    0 < initNextLayerHandle ∧
    (initClientState env).nextLayerHandle = initNextLayerHandle := by
  obtain ⟨e1layer, e1status, e1flag, e1next, e1res, e1calls, e1writes⟩ :=
    createLayer_batched env s d n hb
  obtain ⟨f1ok, f1layers⟩ := addLayer_fresh h1
  obtain ⟨e2layer, e2status, e2flag, e2next, e2res, e2calls, e2writes⟩ :=
    createLayer_batched env (createLayer env s d n).state d n e1flag
  have h2b : s.nextLayerHandle + 1 ∉
      layersOf (createLayer env s d n).state.displayResources d := by
    rw [e1res, f1layers]
    simp only [List.mem_append, List.mem_singleton, not_or]
    exact ⟨h2, by omega⟩
  obtain ⟨f2ok, f2layers⟩ := addLayer_fresh h2b
  rw [e1next] at e2layer e2status e2res e2writes
  rw [e1res] at f2layers
  refine ⟨?_, e1layer, ?_, e2layer, ?_, ?_, ?_, e1calls, e2calls, e1writes, e2writes,
    by decide, rfl⟩
  · rw [e1status]
    exact f1ok
  · rw [e2status]
    exact f2ok
  · rw [e1layer, e2layer]
    omega
  · rw [e1layer, e2res, e1res, f2layers, f1layers]
    simp
  · rw [e2layer, e2res, e1res, f2layers]
    simp

/-- Witness for claim C8 on a fresh batched session, display 5, slot count 2. -/
theorem batched_createLayer_monotonic_ids_witness :
    batchedState.supportsBatchedCreateLayer = true ∧
    (1 : Int) ∉ layersOf batchedState.displayResources 5 ∧
    (createLayer envA batchedState 5 2).status = Status.ok ∧
    (createLayer envA batchedState 5 2).layer = 1 ∧
    (createLayer envA (createLayer envA batchedState 5 2).state 5 2).status = Status.ok ∧
    (createLayer envA (createLayer envA batchedState 5 2).state 5 2).layer = 2 ∧
    (createLayer envA batchedState 5 2).layer <
      (createLayer envA (createLayer envA batchedState 5 2).state 5 2).layer ∧
    (createLayer envA batchedState 5 2).calls = [] ∧
    (createLayer envA (createLayer envA batchedState 5 2).state 5 2).calls = [] := by
  have h := batched_createLayer_monotonic_ids envA batchedState 5 2 (by decide)
    (by decide) (by decide)
  exact ⟨by decide, by decide, h.1, h.2.1, h.2.2.1, by decide, h.2.2.2.2.1,
    h.2.2.2.2.2.2.2.1, h.2.2.2.2.2.2.2.2.1⟩

/-- Claim C9: with a negotiated interface version below 3 and a display
reporting exactly the two raw config ids c0 and c1, the configuration
resolution of discovery issues exactly one attribute query per
(config, attribute) pair for vsync period and config group — four attribute
queries in total, in config order — and records both configs with the
fetched vsync-period and config-group values. -/
theorem legacy_discovery_attribute_calls (env : Remote) (d c0 c1 v0 g0 v1 g1 : Int)
    (hver : env.interfaceVersionR = (Status.ok, 2))
    (hcfgs : env.getDisplayConfigsR d = (Status.ok, [c0, c1]))
    (hne : c0 ≠ c1)
    (h00 : env.getDisplayAttributeR d c0 DisplayAttribute.VSYNC_PERIOD = (Status.ok, v0))
    (h01 : env.getDisplayAttributeR d c0 DisplayAttribute.CONFIG_GROUP = (Status.ok, g0))
    (h10 : env.getDisplayAttributeR d c1 DisplayAttribute.VSYNC_PERIOD = (Status.ok, v1))
    (h11 : env.getDisplayAttributeR d c1 DisplayAttribute.CONFIG_GROUP = (Status.ok, g1)) :
    (resolveDisplayConfigs env d).1 = Status.ok ∧
    ((resolveDisplayConfigs env d).2.2.filter RemoteCall.isAttributeQuery) =
      [RemoteCall.getDisplayAttribute d c0 DisplayAttribute.VSYNC_PERIOD,
       RemoteCall.getDisplayAttribute d c0 DisplayAttribute.CONFIG_GROUP,
       RemoteCall.getDisplayAttribute d c1 DisplayAttribute.VSYNC_PERIOD,
       RemoteCall.getDisplayAttribute d c1 DisplayAttribute.CONFIG_GROUP] ∧
    (resolveDisplayConfigs env d).2.1.displayConfigs =
      [(c0, { vsyncPeriod := v0, configGroup := g0, vrrConfig := none }),
       (c1, { vsyncPeriod := v1, configGroup := g1, vrrConfig := none })] := by
  have hne2 : c1 ≠ c0 := hne.symm
  simp [resolveDisplayConfigs, getDisplayConfigs, getDisplayConfigurationSupported,
        getInterfaceVersion, hver, hcfgs, addDisplayConfigsLegacyLoop, addDisplayConfigLegacy,
        h00, h01, h10, h11, Status.isOk, VtsDisplay.addDisplayConfig, upsertConfig,
        RemoteCall.isAttributeQuery, hne2]

/-- Witness for claim C9 on the concrete environment envA (interface version
2, raw config ids 0 and 1, attribute value 100 plus the config id). -/
theorem legacy_discovery_attribute_calls_witness :
    envA.interfaceVersionR = (Status.ok, 2) ∧
    envA.getDisplayConfigsR 1 = (Status.ok, [0, 1]) ∧
    (resolveDisplayConfigs envA 1).1 = Status.ok ∧
    ((resolveDisplayConfigs envA 1).2.2.filter RemoteCall.isAttributeQuery) =
      [RemoteCall.getDisplayAttribute 1 0 DisplayAttribute.VSYNC_PERIOD,
       RemoteCall.getDisplayAttribute 1 0 DisplayAttribute.CONFIG_GROUP,
       RemoteCall.getDisplayAttribute 1 1 DisplayAttribute.VSYNC_PERIOD,
       RemoteCall.getDisplayAttribute 1 1 DisplayAttribute.CONFIG_GROUP] ∧
    (resolveDisplayConfigs envA 1).2.1.displayConfigs =
      [(0, { vsyncPeriod := 100, configGroup := 100, vrrConfig := none }),
       (1, { vsyncPeriod := 101, configGroup := 101, vrrConfig := none })] := by
  have h := legacy_discovery_attribute_calls envA 1 0 1 100 100 101 101
    rfl rfl (by decide) rfl rfl rfl rfl
  exact ⟨rfl, rfl, h.1, h.2.1, h.2.2⟩

/-- The legacy per-config loop issues only attribute queries, never a version
query. -/
lemma legacyLoop_no_version_query (env : Remote) (cfgs : List Int) (vd : VtsDisplay) :
    ((addDisplayConfigsLegacyLoop env vd cfgs).2.2).count RemoteCall.getInterfaceVersion
      = 0 := by
  induction cfgs generalizing vd with
  | nil => simp [addDisplayConfigsLegacyLoop]
  | cons c rest ih =>
    simp only [addDisplayConfigsLegacyLoop, addDisplayConfigLegacy]
    split
    · simp [Status.isOk, List.count_cons, ih]
    · simp [Status.isOk, List.count_cons]

/-- Claim C3 counterexample: getDisplayConfigs on the concrete environment
envA at display 1 issues a fresh interface-version query — the version-gated
branch is re-checked per call, not fixed at construction. -/
theorem version_requery_cex :
    RemoteCall.getInterfaceVersion ∈ (getDisplayConfigs envA 1).2 ∧
    ((getDisplayConfigs envA 1).2.count RemoteCall.getInterfaceVersion) = 1 := by
  decide

/-- Claim C3 (amended): supportsBatchedLayerLifecycle is fixed at
construction and no later operation changes it, but the interface version is
not cached: every version-gated call (getDisplayConfigs,
updateDisplayProperties) issues exactly one fresh getInterfaceVersion remote
query, and a legacy-path discovery resolution issues two. -/
theorem version_requeried_per_call (env : Remote) (s : ClientState)
    (d l n c : Int) (vd : VtsDisplay) :
    (createLayer env s d n).state.supportsBatchedCreateLayer =
      s.supportsBatchedCreateLayer ∧
    (destroyLayer env s d l).state.supportsBatchedCreateLayer =
      s.supportsBatchedCreateLayer ∧
    (destroyAllLayers env s).state.supportsBatchedCreateLayer =
      s.supportsBatchedCreateLayer ∧
    ((getDisplayConfigs env d).2.count RemoteCall.getInterfaceVersion) = 1 ∧
    ((updateDisplayProperties env vd c).2.2.count RemoteCall.getInterfaceVersion) = 1 ∧
    (env.interfaceVersionR.1 = Status.ok → env.interfaceVersionR.2 < 3 →
      ((resolveDisplayConfigs env d).2.2.count RemoteCall.getInterfaceVersion) = 2) := by
  refine ⟨?_, ?_, rfl, ?_, ?_, fun hok hlt => ?_⟩
  · simp only [createLayer]
    split
    · rfl
    · split <;> rfl
  · simp only [destroyLayer]
    split
    · rfl
    · split <;> rfl
  · simp only [getDisplayConfigs, getDisplayConfigurationSupported, getInterfaceVersion]
    repeat' split
    all_goals simp [List.count_cons, List.count_nil]
  · simp only [updateDisplayProperties, getDisplayConfigurationSupported, getInterfaceVersion]
    repeat' split
    all_goals simp [List.count_cons, List.count_nil]
  · have hsup : (getDisplayConfigurationSupported env).1 = false := by
      simp [getDisplayConfigurationSupported, getInterfaceVersion, hok, Status.isOk]
      omega
    simp [resolveDisplayConfigs, getDisplayConfigs, hsup]
    repeat' split
    all_goals simp [getDisplayConfigurationSupported, getInterfaceVersion, hok,
      List.count_append, List.count_cons, List.count_nil, legacyLoop_no_version_query]

/-- Witness for the amended claim C3 on the concrete environment envA
(interface version 2). -/
theorem version_requeried_per_call_witness :
    envA.interfaceVersionR.1 = Status.ok ∧ envA.interfaceVersionR.2 < 3 ∧
    ((getDisplayConfigs envA 1).2.count RemoteCall.getInterfaceVersion) = 1 ∧
    ((resolveDisplayConfigs envA 1).2.2.count RemoteCall.getInterfaceVersion) = 2 :=
  ⟨by decide, by decide,
   (version_requeried_per_call envA batchedState 1 1 1 1 vd0).2.2.2.1,
   (version_requeried_per_call envA batchedState 1 1 1 1 vd0).2.2.2.2.2
     (by decide) (by decide)⟩

/-- Claim C1: after a successful teardown the registry should contain zero
virtual displays and zero layers, and every physical display present before
should persist with an empty layer set. Evaluating the code at the failing
input (a registry holding one physical display, id 1, all remote calls
succeeding): teardown reports success, yet the final registry is empty, so
the physical display does not persist. The drain sets physical displays aside
in `physicalDisplays` and swaps them back, but the trailing
`mDisplayResources.clear()` (line 687) then discards them. -/
theorem teardown_drops_physical_displays_bug :
    (tearDown envA (some zeroCounts) physOnlyState).result = true ∧
    (tearDown envA (some zeroCounts) physOnlyState).state.displayResources = [] ∧
    findDisplay (tearDown envA (some zeroCounts) physOnlyState).state.displayResources 1 =
      none := by
  decide

/-- Claim C2 counterexample: with one anomalous event recorded (invalid
hotplug count 1) and a virtual display owning a layer, tearDown reports
failure but issues no remote call, appends no writer record, and leaves the
registry untouched: the destructive drain phase did not run, refuting the
claim that the anomaly check never prevents the drain from executing. -/
theorem teardown_anomaly_blocks_drain_cex :
    verifyComposerCallbackParams (some anomalyCounts) = false ∧
    (tearDown envA (some anomalyCounts) virtualLayerState).result = false ∧
    (tearDown envA (some anomalyCounts) virtualLayerState).state = virtualLayerState ∧
    (tearDown envA (some anomalyCounts) virtualLayerState).calls = [] ∧
    (tearDown envA (some anomalyCounts) virtualLayerState).writes = [] ∧
    layersOf virtualLayerState.displayResources 7 = [9] := by
  decide

/-- Claim C2 (amended): a non-zero anomalous count marks teardown as failed
and short-circuits it: the destructive drain phase is skipped entirely (no
state change, no remote call, no writer record); the drain runs exactly when
no anomalous count is non-zero. -/
theorem teardown_anomaly_short_circuits (env : Remote) (cb : Option CallbackCounts)
    (s : ClientState) (c : CallbackCounts) :
    (verifyComposerCallbackParams cb = false →
      tearDown env cb s = { result := false, state := s, calls := [], writes := [] }) ∧
    (verifyComposerCallbackParams cb = true → tearDown env cb s = destroyAllLayers env s) ∧
    (verifyComposerCallbackParams (some c) = true ↔
      c.invalidHotplugCount = 0 ∧ c.invalidRefreshCount = 0 ∧ c.invalidVsyncCount = 0 ∧
      c.invalidVsyncPeriodChangeCount = 0 ∧ c.invalidSeamlessPossibleCount = 0 ∧
      c.invalidRefreshRateDebugEnabledCallbackCount = 0) := by
  refine ⟨fun h => ?_, fun h => ?_, ?_⟩
  · simp [tearDown, h]
  · simp [tearDown, h]
  · simp [verifyComposerCallbackParams, and_assoc]

/-- Witness for the amended claim C2 at a concrete anomalous session. -/
theorem teardown_anomaly_short_circuits_witness :
    verifyComposerCallbackParams (some anomalyCounts) = false ∧
    tearDown envA (some anomalyCounts) virtualLayerState =
      { result := false, state := virtualLayerState, calls := [], writes := [] } :=
  ⟨by decide,
   (teardown_anomaly_short_circuits envA (some anomalyCounts) virtualLayerState
      anomalyCounts).1 (by decide)⟩

/-- Claim C4 counterexample: on the concrete environment envB the vsync
attribute query fails with error 7, but addDisplayConfigLegacy hands the
caller EX_BAD_CONFIG instead of that original status, and the legacy
updateDisplayProperties does the same for the width/height queries. -/
theorem attribute_error_not_verbatim_cex :
    (envB.getDisplayAttributeR 1 0 DisplayAttribute.VSYNC_PERIOD).1 = Status.error 7 ∧
    (addDisplayConfigLegacy envB vd0 0).1 = Status.error EX_BAD_CONFIG ∧
    (addDisplayConfigLegacy envB vd0 0).1 ≠ Status.error 7 ∧
    (envB.getDisplayAttributeR 1 0 DisplayAttribute.WIDTH).1 = Status.error 7 ∧
    (updateDisplayProperties envB vd0 0).1 = Status.error EX_BAD_CONFIG ∧
    (updateDisplayProperties envB vd0 0).1 ≠ Status.error 7 := by
  decide

/-- Claim C4 (amended): when a legacy per-config attribute query (vsync
period or config group during discovery, width or height during a
display-property update) fails, the caller receives the service-specific
error EX_BAD_CONFIG, not the failing remote call's own status, and the
display record is left unchanged. -/
theorem attribute_error_collapsed_to_bad_config (env : Remote) (vd : VtsDisplay)
    (config : Int) :
    (((env.getDisplayAttributeR vd.displayId config DisplayAttribute.VSYNC_PERIOD).1.isOk &&
      (env.getDisplayAttributeR vd.displayId config DisplayAttribute.CONFIG_GROUP).1.isOk)
        = false →
      (addDisplayConfigLegacy env vd config).1 = Status.error EX_BAD_CONFIG ∧
      (addDisplayConfigLegacy env vd config).2.1 = vd) ∧
    ((getDisplayConfigurationSupported env).1 = false →
     ((env.getDisplayAttributeR vd.displayId config DisplayAttribute.WIDTH).1.isOk &&
      (env.getDisplayAttributeR vd.displayId config DisplayAttribute.HEIGHT).1.isOk)
        = false →
      (updateDisplayProperties env vd config).1 = Status.error EX_BAD_CONFIG ∧
      (updateDisplayProperties env vd config).2.1 = vd) := by
  constructor
  · intro h
    simp [addDisplayConfigLegacy, h]
  · intro hsup h
    simp [updateDisplayProperties, hsup, h]

/-- Witness for the amended claim C4 on the concrete failing environment envB. -/
theorem attribute_error_collapsed_to_bad_config_witness :
    ((envB.getDisplayAttributeR 1 0 DisplayAttribute.VSYNC_PERIOD).1.isOk &&
     (envB.getDisplayAttributeR 1 0 DisplayAttribute.CONFIG_GROUP).1.isOk) = false ∧
    (addDisplayConfigLegacy envB vd0 0).1 = Status.error EX_BAD_CONFIG ∧
    (addDisplayConfigLegacy envB vd0 0).2.1 = vd0 :=
  ⟨by decide,
   ((attribute_error_collapsed_to_bad_config envB vd0 0).1 (by decide)).1,
   ((attribute_error_collapsed_to_bad_config envB vd0 0).1 (by decide)).2⟩

/-- Claim C5: in unbatched mode, a destroyLayer whose remote call fails
returns that very error and leaves the registry exactly as before; ownership
is removed only after the remote call reports success. -/
theorem destroyLayer_unbatched_failure_preserves_registry (env : Remote) (s : ClientState)
    (d l : Int) (hb : s.supportsBatchedCreateLayer = false) :
    ((env.destroyLayerR d l).isOk = false →
      (destroyLayer env s d l).status = env.destroyLayerR d l ∧
      (destroyLayer env s d l).state = s) ∧
    ((env.destroyLayerR d l).isOk = true →
      (destroyLayer env s d l).status = Status.ok ∧
      (destroyLayer env s d l).state.displayResources =
        removeLayerFromDisplayResources s.displayResources d l) := by
  constructor <;> intro h <;> simp [destroyLayer, hb, h]

/-- Witness for claim C5: the concrete environment envB fails the remote
destroy with error 5 and the registry holding display 1 with layer 2 is
returned unchanged. -/
theorem destroyLayer_unbatched_failure_witness :
    physLayerState.supportsBatchedCreateLayer = false ∧
    (envB.destroyLayerR 1 2).isOk = false ∧
    (destroyLayer envB physLayerState 1 2).status = envB.destroyLayerR 1 2 ∧
    (destroyLayer envB physLayerState 1 2).state = physLayerState :=
  ⟨by decide, by decide,
   ((destroyLayer_unbatched_failure_preserves_registry envB physLayerState 1 2
       (by decide)).1 (by decide)).1,
   ((destroyLayer_unbatched_failure_preserves_registry envB physLayerState 1 2
       (by decide)).1 (by decide)).2⟩

/-- Claim C10: in batched mode destroyLayer returns success for every display
id and layer id, registered or not; it issues no remote call, appends exactly
one DESTROY record to the pending buffer, and removes the (possibly absent)
ownership entry; when the display is unknown the session is unchanged. -/
theorem batched_destroyLayer_always_ok (env : Remote) (s : ClientState) (d l : Int)
    (hb : s.supportsBatchedCreateLayer = true) :
    (destroyLayer env s d l).status = Status.ok ∧
    (destroyLayer env s d l).calls = [] ∧
    (destroyLayer env s d l).writes =
      [WriterCmd.lifecycleBatch d l LayerLifecycleBatchCommandType.DESTROY] ∧
    (destroyLayer env s d l).state.displayResources =
      removeLayerFromDisplayResources s.displayResources d l ∧
    (findDisplay s.displayResources d = none → (destroyLayer env s d l).state = s) := by
  refine ⟨by simp [destroyLayer, hb], by simp [destroyLayer, hb], by simp [destroyLayer, hb],
    by simp [destroyLayer, hb], fun h => ?_⟩
  obtain ⟨b, n, m⟩ := s
  cases hb
  simp [destroyLayer, removeLayerFromDisplayResources, h]

/-- Witness for claim C10 at ids never registered (display 99, layer 123). -/
theorem batched_destroyLayer_always_ok_witness :
    batchedState.supportsBatchedCreateLayer = true ∧
    (destroyLayer envA batchedState 99 123).status = Status.ok ∧
    (destroyLayer envA batchedState 99 123).calls = [] ∧
    (destroyLayer envA batchedState 99 123).state = batchedState :=
  ⟨by decide,
   (batched_destroyLayer_always_ok envA batchedState 99 123 (by decide)).1,
   (batched_destroyLayer_always_ok envA batchedState 99 123 (by decide)).2.1,
   (batched_destroyLayer_always_ok envA batchedState 99 123 (by decide)).2.2.2.2 (by decide)⟩

end VtsComposer
